import Mathlib

/-
Verification of the image upload / captioning / retrieval pipeline in
src/main.py (a Flask app backed by a blob store and the Gemini captioning
service).

Shallow embedding conventions:
* Python strings are Lean `String`; character-level operations work on
  `String.data : List Char`.
* The blob store is an association list `Store`; a fresh write is a cons,
  and `List.lookup` returns the most recent write for a key, which models
  the overwrite-on-collision semantics of the bucket.
* The two network calls of the captioning client (asset upload, content
  generation) are modelled by an environment `GeminiEnv` recording the
  outcome the external service produces for this request; an exception
  escaping a call is an explicit outcome constructor.
* Python dicts holding the caption are association lists
  `List (String × String)`: every dict built by the source has exactly
  the literal keys "title" and "description" with string values, and
  `json.dump` followed by `json.load` on such a dict is lossless, so the
  sidecar blob stores the dict itself (`StoreVal.jsonDict`).
* An exception escaping a route handler is `Option.none` in the handler
  result.
-/

/-- Python `str.strip()` whitespace test, restricted to the ASCII
whitespace characters (space, tab, newline, carriage return, vertical
tab, form feed). -/
def isPyWhitespace (c : Char) : Bool :=
  c == ' ' || c == '\t' || c == '\n' || c == '\r' ||
  c == Char.ofNat 11 || c == Char.ofNat 12

/-- Python `str.strip()` on the character list of a string: drop leading
and trailing whitespace. -/
def pyStripChars (s : List Char) : List Char :=
  ((s.dropWhile isPyWhitespace).reverse.dropWhile isPyWhitespace).reverse

/-- Python `str.strip()`. -/
def pyStrip (s : String) : String :=
  ⟨pyStripChars s.data⟩

/-- Whether `pat` is a prefix of `s`, as a boolean on character lists. -/
def startsWithPat : List Char → List Char → Bool
  | [], _ => true
  | _ :: _, [] => false
  | p :: ps, c :: cs => p == c && startsWithPat ps cs

/-- Python `s.endswith(p)`: `p` is a suffix of `s`. -/
def pyEndsWith (s p : String) : Bool :=
  startsWithPat p.data.reverse s.data.reverse

/-- Split a character list at the first occurrence of the pattern `pat`:
`some (before, after)` when `pat` occurs, `none` otherwise.  This is the
character-level content of Python `s.split(pat, 1)` (which returns a
two-element list exactly when `pat` occurs) together with
`pat in s` (which is `some?`-ness here). -/
def splitFirstAux (pat : List Char) : List Char → Option (List Char × List Char)
  | [] => none
  | c :: cs =>
    if startsWithPat pat (c :: cs) then
      some ([], (c :: cs).drop pat.length)
    else
      match splitFirstAux pat cs with
      | some (pre, post) => some (c :: pre, post)
      | none => none

/-- The two-character delimiter `". "` of the caption parse heuristic. -/
def dotSpace : List Char := ['.', ' ']

/-- Python `filename.rsplit('.', 1)[0]` scanned from the right on a
reversed character list: `some rest` when a dot was found (`rest` is the
reversed stem), `none` when the list holds no dot. -/
def dropExtRev : List Char → Option (List Char)
  | [] => none
  | c :: cs => if c = '.' then some cs else dropExtRev cs

/-- Python `filename.rsplit('.', 1)[0]`: everything before the last dot,
or the whole string when it has no dot. -/
def stemChars (s : List Char) : List Char :=
  match dropExtRev s.reverse with
  | some r => r.reverse
  | none => s

/-- The sidecar key derivation used by both `upload` (src/main.py:147)
and `view_file` (src/main.py:188): `filename.rsplit('.', 1)[0] + ".json"`. -/
def jsonKey (filename : String) : String :=
  ⟨stemChars filename.data ++ ['.', 'j', 's', 'o', 'n']⟩

/-- Outcome of the `genai.upload_file` call inside `upload_to_gemini`
(src/main.py:55): the call can raise, or return a possibly-falsy file
object (`some ref` carries the opaque asset reference). -/
inductive UploadOutcome where
  | raised
  | returned (f : Option String)
  deriving DecidableEq

/-- Outcome of `model.generate_content` followed by `response.text`
inside `generate_gemini_caption` (src/main.py:86-95): either an
exception escapes those calls, or a response text is produced. -/
inductive GenOutcome where
  | raised
  | text (s : String)
  deriving DecidableEq

/-- The behavior of the external Gemini service for one request. -/
structure GeminiEnv where
  uploadOutcome : UploadOutcome
  genOutcome : GenOutcome
  deriving DecidableEq

/-- src/main.py:52-62 `upload_to_gemini`: wraps `genai.upload_file` in
try/except; a falsy return raises ValueError inside the try, and every
exception is caught and turned into `None`. -/
def upload_to_gemini : UploadOutcome → Option String
  | .raised => none
  | .returned none => none
  | .returned (some f) => some f

/-- The parse heuristic of src/main.py:95-101: strip the response text;
if it contains `". "` split on the first occurrence, else use the
`"Generated Title"` fallback; strip each piece; build the caption dict. -/
def parseCaption (raw : String) : List (String × String) :=
  let result_text := pyStripChars raw.data
  match splitFirstAux dotSpace result_text with
  | some (title, description) =>
    [("title", String.mk (pyStripChars title)),
     ("description", String.mk (pyStripChars description))]
  | none =>
    [("title", String.mk (pyStripChars "Generated Title".data)),
     ("description", String.mk (pyStripChars result_text))]

/-- The upload-failure sentinel dict of src/main.py:84. -/
def uploadFailedCaption : List (String × String) :=
  [("title", "Upload Failed"),
   ("description", "Could not generate description due to upload error.")]

/-- The generation-error sentinel dict of src/main.py:104. -/
def errorCaption : List (String × String) :=
  [("title", "Error"),
   ("description", "An error occurred while generating the description.")]

/-- The try-block body of `generate_gemini_caption` (src/main.py:66-101),
with exception propagation made explicit: `Except.error` is an exception
escaping the block, `Except.ok` is a `return` from it.  The body returns
the upload-failure sentinel when `upload_to_gemini` yields `None`,
propagates an exception of the generation stage, and otherwise parses
the response text (pure string operations, which cannot raise). -/
def generateBody (env : GeminiEnv) : Except String (List (String × String)) :=
  match upload_to_gemini env.uploadOutcome with
  | none => .ok uploadFailedCaption
  | some _ =>
    match env.genOutcome with
    | .raised => .error "exception from generate_content or response.text"
    | .text t => .ok (parseCaption t)

/-- src/main.py:64-104 `generate_gemini_caption`: the try-block body with
its except-handler, which catches any exception and returns the
generation-error sentinel dict. -/
def generate_gemini_caption (env : GeminiEnv) : List (String × String) :=
  match generateBody env with
  | .ok m => m
  | .error _ => errorCaption

/-- A value stored in the bucket: raw image bytes, or the JSON
serialization of a caption dict. -/
inductive StoreVal where
  | bytes (data : List Nat)
  | jsonDict (m : List (String × String))
  deriving DecidableEq

/-- The blob-store state: newest write first; `List.lookup` models reads. -/
abbrev Store := List (String × StoreVal)

/-- Python `metadata.get(k, dflt)` on a caption dict. -/
def pyDictGet (m : List (String × String)) (k dflt : String) : String :=
  match List.lookup k m with
  | some v => v
  | none => dflt

/-- src/main.py:46-49 `list_blobs`: keep exactly the stored names ending
in `".jpeg"` or `".jpg"`, in store order. -/
def list_blobs (names : List String) : List String :=
  names.filter (fun n => pyEndsWith n ".jpeg" || pyEndsWith n ".jpg")

/-- Result of the `/upload` route: the no-file error page, or the
success page rendering the caption dict. -/
inductive IngestResult where
  | noFileError
  | page (metadata : List (String × String))
  deriving DecidableEq

/-- src/main.py:134-157 `upload`: if no file was supplied return the
error page with the store untouched; otherwise write the image bytes
under the filename, call `generate_gemini_caption` on the saved image
(its outcome given by `env`), write the caption dict as a JSON sidecar
under `jsonKey filename`, and render the caption. -/
def upload (store : Store) (form_file : Option (String × List Nat))
    (env : GeminiEnv) : IngestResult × Store :=
  match form_file with
  | none => (.noFileError, store)
  | some (filename, data) =>
    let store1 : Store := (filename, .bytes data) :: store
    let metadata := generate_gemini_caption env
    let store2 : Store := (jsonKey filename, .jsonDict metadata) :: store1
    (.page metadata, store2)

/-- src/main.py:179-211 `view_file`: derive the sidecar key, download it;
if present parse the JSON and render `metadata.get` of title and
description; if absent render the `"No Title"` defaults.  `none` models
the `json.load` exception when the blob under the sidecar key is not a
JSON dict. -/
def view_file (store : Store) (filename : String) :
    Option (String × String) :=
  match List.lookup (jsonKey filename) store with
  | some (.jsonDict m) =>
    some (pyDictGet m "title" "Image",
          pyDictGet m "description" "No description available.")
  | some (.bytes _) => none
  | none => some ("No Title", "No description available.")

/-- The parse heuristic exactly as the specification states it: trim the
response text; if it contains `". "`, split on the first occurrence into
`(title, description)`; otherwise the title is `"Generated Title"` and
the description is the entire trimmed text.  Stated from the
specification words, to be compared with `parseCaption` from the source. -/
def claimedParse (raw : String) : String × String :=
  let trimmed := pyStrip raw
  match splitFirstAux dotSpace trimmed.data with
  | some (title, description) => (⟨title⟩, ⟨description⟩)
  | none => ("Generated Title", trimmed)

/-- Dropping the last dot-extension of a string that ends in `".json"`
recovers the part before that suffix (`"json"` holds no dot, so the dot
of the suffix is the last dot). -/
theorem stemChars_append_json (x : List Char) :
    stemChars (x ++ ['.', 'j', 's', 'o', 'n']) = x := by
  simp [stemChars, List.reverse_append, dropExtRev]

/-- A dot-free string has no extension to drop. -/
theorem dropExtRev_eq_none (s : List Char) (h : '.' ∉ s) :
    dropExtRev s = none := by
  induction s with
  | nil => rfl
  | cons c cs ih =>
    simp only [List.mem_cons, not_or] at h
    simp [dropExtRev, Ne.symm h.1, ih h.2]

theorem startsWithPat_iff (p s : List Char) :
    startsWithPat p s = true ↔ p <+: s := by
  induction p generalizing s with
  | nil => simp [startsWithPat]
  | cons a as ih =>
    cases s with
    | nil => simp [startsWithPat]
    | cons b bs =>
      simp [startsWithPat, Bool.and_eq_true, beq_iff_eq, ih, List.cons_prefix_cons]

theorem pyEndsWith_iff (s p : String) :
    pyEndsWith s p = true ↔ ∃ q, s.data = q ++ p.data := by
  rw [pyEndsWith, startsWithPat_iff, List.reverse_prefix]
  constructor
  · rintro ⟨t, ht⟩
    exact ⟨t, ht.symm⟩
  · rintro ⟨q, hq⟩
    exact ⟨q, hq.symm⟩

/-- Every branch of the parse heuristic produces a dict with exactly the
keys "title" and "description", in that order. -/
theorem parseCaption_shape (raw : String) :
    ∃ t d, parseCaption raw = [("title", t), ("description", d)] := by
  cases h : splitFirstAux dotSpace (pyStripChars raw.data) with
  | none =>
    exact ⟨⟨pyStripChars "Generated Title".data⟩,
      ⟨pyStripChars (pyStripChars raw.data)⟩, by simp [parseCaption, h]⟩
  | some p =>
    obtain ⟨a, b⟩ := p
    exact ⟨⟨pyStripChars a⟩, ⟨pyStripChars b⟩, by simp [parseCaption, h]⟩

/-- Every branch of `generate_gemini_caption` produces a dict with
exactly the keys "title" and "description", in that order. -/
theorem caption_shape (env : GeminiEnv) :
    ∃ t d, generate_gemini_caption env = [("title", t), ("description", d)] := by
  obtain ⟨u, g⟩ := env
  cases u with
  | raised =>
    exact ⟨"Upload Failed",
      "Could not generate description due to upload error.", rfl⟩
  | returned f =>
    cases f with
    | none =>
      exact ⟨"Upload Failed",
        "Could not generate description due to upload error.", rfl⟩
    | some r =>
      cases g with
      | raised =>
        exact ⟨"Error",
          "An error occurred while generating the description.", rfl⟩
      | text t =>
        obtain ⟨a, b, hp⟩ := parseCaption_shape t
        exact ⟨a, b, hp⟩

/-- C1: if the captioning client returns a caption with title T and
description D, then uploading a file and viewing it under the same
filename renders exactly (T, D): the sidecar written under
`jsonKey filename` on ingest is the blob `view_file` reads back. -/
theorem ingest_then_view_renders_caption (store : Store) (filename : String)
    (data : List Nat) (env : GeminiEnv) (T D : String)
    (h : generate_gemini_caption env = [("title", T), ("description", D)]) :
    view_file (upload store (some (filename, data)) env).2 filename =
      some (T, D) := by
  simp [upload, view_file, h, List.lookup, pyDictGet]

theorem ingest_then_view_renders_caption_witness :
    view_file (upload [] (some ("img.jpg", [1, 2]))
        ⟨.returned (some "ref"), .text "A. B"⟩).2 "img.jpg" =
      some ("A", "B") :=
  ingest_then_view_renders_caption [] "img.jpg" [1, 2]
    ⟨.returned (some "ref"), .text "A. B"⟩ "A" "B" (by decide)

/-- C2: the captioning operation is total at its boundary: for every
behavior of the external service it returns a (title, description)
dict, and when an exception escapes the try-block body the except
handler turns it into the documented error sentinel instead of
re-raising. -/
theorem generate_gemini_caption_total (env : GeminiEnv) :
    (∃ t d, generate_gemini_caption env = [("title", t), ("description", d)]) ∧
    (∀ e, generateBody env = .error e →
      generate_gemini_caption env = errorCaption) := by
  refine ⟨caption_shape env, ?_⟩
  intro e he
  simp [generate_gemini_caption, he]

theorem generate_gemini_caption_total_witness :
    generate_gemini_caption ⟨.returned (some "ref"), .raised⟩ = errorCaption :=
  (generate_gemini_caption_total ⟨.returned (some "ref"), .raised⟩).2
    "exception from generate_content or response.text" rfl

/-- C3: when the asset-upload stage fails (the upload call raises, or no
asset reference is returned), ingestion still completes: the final store
holds the image blob under the filename and a sidecar under the derived
key whose caption is exactly the upload-failure sentinel. -/
theorem ingest_persists_upload_failed_sentinel (store : Store)
    (filename : String) (data : List Nat) (env : GeminiEnv)
    (h : env.uploadOutcome = .raised ∨ env.uploadOutcome = .returned none) :
    upload store (some (filename, data)) env =
      (.page uploadFailedCaption,
       (jsonKey filename, .jsonDict uploadFailedCaption) ::
         (filename, .bytes data) :: store) := by
  have hc : generate_gemini_caption env = uploadFailedCaption := by
    rcases h with h | h <;>
      simp [generate_gemini_caption, generateBody, upload_to_gemini, h]
  simp [upload, hc]

theorem ingest_persists_upload_failed_sentinel_witness :
    upload [] (some ("cat.jpg", [7])) ⟨.raised, .text "x"⟩ =
      (.page uploadFailedCaption,
       [(jsonKey "cat.jpg", .jsonDict uploadFailedCaption),
        ("cat.jpg", .bytes [7])]) :=
  ingest_persists_upload_failed_sentinel [] "cat.jpg" [7]
    ⟨.raised, .text "x"⟩ (Or.inl rfl)

/-- C4: when the asset upload succeeded but an exception escapes the
generation stage, the returned caption is exactly the generation-error
sentinel, and ingestion persists that sentinel in the sidecar. -/
theorem generation_failure_persists_error_sentinel (store : Store)
    (filename : String) (data : List Nat) (env : GeminiEnv) (r : String)
    (h1 : env.uploadOutcome = .returned (some r))
    (h2 : env.genOutcome = .raised) :
    generate_gemini_caption env = errorCaption ∧
    upload store (some (filename, data)) env =
      (.page errorCaption,
       (jsonKey filename, .jsonDict errorCaption) ::
         (filename, .bytes data) :: store) := by
  have hc : generate_gemini_caption env = errorCaption := by
    simp [generate_gemini_caption, generateBody, upload_to_gemini, h1, h2]
  exact ⟨hc, by simp [upload, hc]⟩

theorem generation_failure_persists_error_sentinel_witness :
    generate_gemini_caption ⟨.returned (some "ref"), .raised⟩ =
      errorCaption ∧
    upload [] (some ("dog.jpg", [3])) ⟨.returned (some "ref"), .raised⟩ =
      (.page errorCaption,
       [(jsonKey "dog.jpg", .jsonDict errorCaption),
        ("dog.jpg", .bytes [3])]) :=
  generation_failure_persists_error_sentinel [] "dog.jpg" [3]
    ⟨.returned (some "ref"), .raised⟩ "ref" rfl rfl

/-- C5 fails as stated: the source strips each split piece again, so on
the response text "A.  B" (two spaces) the code yields description "B"
while a bare split on the first occurrence of ". " yields " B". -/
theorem parse_heuristic_claim_refuted :
    ¬ (∀ raw, parseCaption raw =
        [("title", (claimedParse raw).1),
         ("description", (claimedParse raw).2)]) :=
  fun h => absurd (h "A.  B") (by decide)

/-- C5 amended: the parse heuristic is the specified trim-then-split rule
with each resulting component additionally whitespace-stripped. -/
theorem parse_heuristic_amended (raw : String) :
    parseCaption raw =
      [("title", pyStrip (claimedParse raw).1),
       ("description", pyStrip (claimedParse raw).2)] := by
  cases h : splitFirstAux dotSpace (pyStripChars raw.data) with
  | none => simp [parseCaption, claimedParse, pyStrip, h]
  | some p =>
    obtain ⟨a, b⟩ := p
    simp [parseCaption, claimedParse, pyStrip, h]

/-- C6: `list_blobs` returns exactly the stored names that end in ".jpg"
or ".jpeg" (a case-sensitive suffix match), and on the store
{"a.jpg","b.png","c.jpeg","d.txt"} it returns exactly
{"a.jpg","c.jpeg"}. -/
theorem list_blobs_filters_jpeg_keys :
    (∀ (names : List String) (k : String),
      k ∈ list_blobs names ↔
        k ∈ names ∧
          ((∃ q, k.data = q ++ ".jpg".data) ∨
           (∃ q, k.data = q ++ ".jpeg".data))) ∧
    list_blobs ["a.jpg", "b.png", "c.jpeg", "d.txt"] = ["a.jpg", "c.jpeg"] := by
  constructor
  · intro names k
    rw [list_blobs, List.mem_filter]
    simp only [Bool.or_eq_true, pyEndsWith_iff]
    rw [or_comm]
  · decide

/-- C7: viewing a key whose sidecar is absent from the store does not
fail: it renders the default payload. -/
theorem view_missing_sidecar_defaults (store : Store) (filename : String)
    (h : List.lookup (jsonKey filename) store = none) :
    view_file store filename =
      some ("No Title", "No description available.") := by
  simp [view_file, h]

theorem view_missing_sidecar_defaults_witness :
    view_file [] "img.jpg" =
      some ("No Title", "No description available.") :=
  view_missing_sidecar_defaults [] "img.jpg" rfl

/-- C8: when no file is supplied, `upload` returns the user-input error
page and leaves the store exactly as it was: no blob write, no sidecar,
and (by the shape of the branch) no captioning call. -/
theorem ingest_no_file_leaves_store_unchanged (store : Store)
    (env : GeminiEnv) :
    upload store none env = (.noFileError, store) :=
  rfl

/-- C9: the sidecar-key derivation is idempotent; a key ending in
".json" maps to itself, and a key without a dot maps to itself plus
".json". -/
theorem jsonKey_idempotent (k : String) :
    jsonKey (jsonKey k) = jsonKey k ∧
    ((∃ p : String, k = p ++ ".json") → jsonKey k = k) ∧
    ('.' ∉ k.data → jsonKey k = k ++ ".json") := by
  refine ⟨?_, ?_, ?_⟩
  · simp [jsonKey, stemChars_append_json]
  · rintro ⟨p, rfl⟩
    have h1 : (p ++ ".json").data = p.data ++ ['.', 'j', 's', 'o', 'n'] := rfl
    simp only [jsonKey, h1, stemChars_append_json]
    rfl
  · intro h
    have h2 : dropExtRev k.data.reverse = none :=
      dropExtRev_eq_none _ (by simpa using h)
    simp only [jsonKey, stemChars, h2]
    rfl

theorem jsonKey_idempotent_witness :
    jsonKey (jsonKey "photo.jpg") = jsonKey "photo.jpg" ∧
    jsonKey "a.json" = "a.json" ∧
    jsonKey "nodot" = "nodot" ++ ".json" :=
  ⟨(jsonKey_idempotent "photo.jpg").1,
   (jsonKey_idempotent "a.json").2.1 ⟨"a", by decide⟩,
   (jsonKey_idempotent "nodot").2.2 (by decide)⟩

/-- C10: in every branch the caption dict has exactly the two keys
"title" and "description" (values are strings by construction), and
ingestion persists exactly that dict as the sidecar under the derived
key. -/
theorem caption_always_title_description_keys (env : GeminiEnv)
    (store : Store) (filename : String) (data : List Nat) :
    (generate_gemini_caption env).map Prod.fst = ["title", "description"] ∧
    List.lookup (jsonKey filename)
        (upload store (some (filename, data)) env).2 =
      some (.jsonDict (generate_gemini_caption env)) := by
  constructor
  · obtain ⟨t, d, h⟩ := caption_shape env
    simp [h]
  · simp [upload, List.lookup]
